import Mathlib

/-!
Verification of the `ApiCorsLambdaCrudDynamodbStack` deployment descriptor
(`lib/api-cors-lambda-crud-dynamodb-stack.ts`).

The stack constructor declares three resources and one permission grant:
a DynamoDB table (`dynamoTable`), a Lambda function (`itemsLambda`), a
read-write data grant from the function onto the table, and a
`LambdaRestApi` (`itemsApi`) wrapping the function.  The descriptors the
constructor builds are embedded below as plain Lean values; the semantics
supplied by the `aws-cdk-lib` library (grant action sets, proxy routing,
teardown behaviour) are modelled from the specification, as noted on each
such definition.
-/

namespace ApiCorsLambdaCrudDynamodb

/-- DynamoDB key attribute types (`aws-dynamodb` `AttributeType`). -/
inductive AttributeType
  | STRING
  | NUMBER
  | BINARY
deriving DecidableEq, Repr

/-- A key attribute declaration: an attribute name and its type. -/
structure Attribute where
  name : String
  type : AttributeType
deriving DecidableEq, Repr

/-- Resource removal policies (`cdk.RemovalPolicy`). -/
inductive RemovalPolicy
  | DESTROY
  | RETAIN
deriving DecidableEq, Repr

/-- A string-valued configuration entry: either a plain literal, or a token
referencing another resource by logical id, carrying the resolved physical
name when the referenced resource was given a caller-supplied literal name. -/
inductive StrVal
  | lit (s : String)
  | ref (logicalId : String) (resolved : Option String)
deriving DecidableEq, Repr

/-- The props the stack passes to the table declaration. -/
structure TableProps where
  partitionKey : Attribute
  sortKey : Option Attribute := none
  tableName : Option String := none
  removalPolicy : Option RemovalPolicy := none
deriving DecidableEq, Repr

/-- A DynamoDB table descriptor. -/
structure Table where
  logicalId : String
  props : TableProps
deriving DecidableEq, Repr

/-- The `tableName` token of a table descriptor: a reference to the table
resource, which resolves to the caller-supplied literal when one was given
and is otherwise platform-generated (unresolved at synthesis time). -/
def Table.tableName (t : Table) : StrVal :=
  StrVal.ref t.logicalId t.props.tableName

/-- Lambda runtime families; provided (custom) runtimes belong to OTHER. -/
inductive RuntimeFamily
  | NODEJS
  | PYTHON
  | OTHER
deriving DecidableEq, Repr

/-- The Lambda runtimes relevant to this stack. -/
inductive Runtime
  | PROVIDED_AL2023
  | PROVIDED_AL2
  | NODEJS_18_X
deriving DecidableEq, Repr

/-- The family of each runtime: the provided runtimes execute an external
self-contained binary (family OTHER) rather than an in-process handler. -/
def Runtime.family : Runtime → RuntimeFamily
  | .PROVIDED_AL2023 => .OTHER
  | .PROVIDED_AL2 => .OTHER
  | .NODEJS_18_X => .NODEJS

/-- Lambda CPU architectures. -/
inductive Architecture
  | ARM_64
  | X86_64
deriving DecidableEq, Repr

/-- The props the stack passes to the function declaration. -/
structure FunctionProps where
  runtime : Runtime
  architecture : Architecture
  codePath : String
  handler : String
  environment : List (String × StrVal) := []
deriving DecidableEq, Repr

/-- A Lambda function descriptor (`aws_lambda.Function`). -/
structure Fn where
  logicalId : String
  props : FunctionProps
deriving DecidableEq, Repr

/-- Modelled from the spec: a runtime dispatches to the named in-process
handler unless it belongs to the provided family, which runs the bundled
self-contained binary and ignores the handler marker. -/
def Fn.handlerUsedForDispatch (f : Fn) : Bool :=
  f.props.runtime.family != RuntimeFamily.OTHER

/-- Logical ids referenced through a string value. -/
def StrVal.refIds : StrVal → List String
  | .lit _ => []
  | .ref id _ => [id]

/-- Logical ids the function references through its environment variables. -/
def Fn.envRefs (f : Fn) : List String :=
  (f.props.environment.map fun p => p.2.refIds).flatten

/-- Modelled from the spec: the DynamoDB read data-plane actions covered by
`grantReadWriteData` (the grant implementation lives in `aws-cdk-lib`, which
is not part of this repository). -/
def readDataActions : List String :=
  ["dynamodb:BatchGetItem", "dynamodb:GetItem", "dynamodb:Query",
   "dynamodb:Scan", "dynamodb:ConditionCheckItem"]

/-- Modelled from the spec: the DynamoDB write data-plane actions covered by
`grantReadWriteData`. -/
def writeDataActions : List String :=
  ["dynamodb:BatchWriteItem", "dynamodb:PutItem", "dynamodb:UpdateItem",
   "dynamodb:DeleteItem"]

/-- Control-plane and administrative DynamoDB actions, which a pure
data-plane grant must not contain. -/
def adminActions : List String :=
  ["dynamodb:DeleteTable", "dynamodb:CreateTable", "dynamodb:UpdateTable",
   "dynamodb:*", "*"]

/-- A permission grant: subject (grantee identity), object (resource), and
the permitted action set. -/
structure Grant where
  grantee : String
  resource : String
  actions : List String
deriving DecidableEq, Repr

/-- Modelled from the spec: `grantReadWriteData` attaches a policy permitting
the read and write data-plane operations from the function's execution
identity onto the table. -/
def Table.grantReadWriteData (t : Table) (f : Fn) : Grant :=
  { grantee := f.logicalId
    resource := t.logicalId
    actions := readDataActions ++ writeDataActions }

/-- Cross-origin resource sharing options for an API (subset). -/
structure CorsOptions where
  allowOrigins : List String
deriving DecidableEq, Repr

/-- The props surface of the `LambdaRestApi` declaration that is relevant
here.  `proxy` defaults to true (a greedy catch-all route to the handler);
CORS preflight handling is only configured when
`defaultCorsPreflightOptions` is supplied. -/
structure LambdaRestApiProps where
  handler : String
  proxy : Bool := true
  defaultCorsPreflightOptions : Option CorsOptions := none
deriving DecidableEq, Repr

/-- A REST API descriptor. -/
structure RestApi where
  logicalId : String
  props : LambdaRestApiProps
deriving DecidableEq, Repr

/-- HTTP methods. -/
inductive HttpMethod
  | GET
  | POST
  | PUT
  | DELETE
  | PATCH
  | HEAD
  | OPTIONS
deriving DecidableEq, Repr

/-- Modelled from the spec: with `proxy` set, the route set of a
`LambdaRestApi` matches every method and every path. -/
def RestApi.routeMatches (api : RestApi) (_m : HttpMethod) (_path : String) : Bool :=
  api.props.proxy

/-- The target resources wired by the routing descriptor: exactly the one
backing handler. -/
def RestApi.targets (api : RestApi) : List String :=
  [api.props.handler]

/-- Whether any cross-origin preflight handling is configured on the API
descriptor itself. -/
def RestApi.corsConfigured (api : RestApi) : Bool :=
  api.props.defaultCorsPreflightOptions.isSome

/-- Modelled from the spec: the `LambdaRestApi` endpoint is public. -/
def RestApi.isPublic (_api : RestApi) : Bool :=
  true

/-- An HTTP request as seen by the routing layer. -/
structure HttpRequest where
  method : HttpMethod
  path : String
deriving DecidableEq, Repr

/-- An HTTP response. -/
structure HttpResponse where
  status : Nat
  headers : List (String × String)
  body : String
deriving DecidableEq, Repr

/-- Modelled from the spec: the API forwards a matched request to the backend
and returns the backend's response verbatim; an unmatched request is refused
by the platform without reaching the backend. -/
def RestApi.dispatch (api : RestApi) (backend : HttpRequest → HttpResponse)
    (req : HttpRequest) : HttpResponse :=
  if api.routeMatches req.method req.path then backend req
  else { status := 403, headers := [], body := "" }

/-- The table declared by the stack constructor: logical id `items`, a single
string partition key `itemId`, a caller-supplied literal physical name, and a
destroy removal policy. -/
def dynamoTable : Table :=
  { logicalId := "items"
    props :=
      { partitionKey := { name := "itemId", type := AttributeType.STRING }
        sortKey := none
        tableName := some ("items")
        removalPolicy := some RemovalPolicy.DESTROY } }

/-- The function declared by the stack constructor: provided runtime on
ARM_64, a pre-built asset, the sentinel handler string, and two environment
variables wiring in the partition-key name and the table-name token. -/
def itemsLambda : Fn :=
  { logicalId := "itemsLambda"
    props :=
      { runtime := Runtime.PROVIDED_AL2023
        architecture := Architecture.ARM_64
        codePath := "lambda/target/lambda/crud-lambda"
        handler := "not.required"
        environment :=
          [("PK", StrVal.lit ("itemId")),
           ("TABLE_NAME", dynamoTable.tableName)] } }

/-- The grant attached by the stack constructor. -/
def itemsGrant : Grant :=
  dynamoTable.grantReadWriteData itemsLambda

/-- The REST API declared by the stack constructor: only the handler is
supplied, every other prop keeps its declaration default. -/
def itemsApi : RestApi :=
  { logicalId := "itemsApi"
    props := { handler := itemsLambda.logicalId } }

/-- A uniform view of a resource descriptor, for ordering, ownership and
diff statements. -/
inductive ResourceProps
  | tableP (p : TableProps)
  | fnP (p : FunctionProps)
  | grantP (g : Grant)
  | apiP (p : LambdaRestApiProps)
deriving DecidableEq, Repr

/-- A synthesized resource: logical id, owning stack, descriptor, and the
logical ids of the resources it references. -/
structure Resource where
  id : String
  owner : String
  props : ResourceProps
  refs : List String
deriving DecidableEq, Repr

/-- Synthesis of the stack: the ordered resource list the constructor builds,
leaves first, each resource owned by the enclosing stack. -/
def synth (stackId : String) : List Resource :=
  [{ id := dynamoTable.logicalId
     owner := stackId
     props := ResourceProps.tableP dynamoTable.props
     refs := [] },
   { id := itemsLambda.logicalId
     owner := stackId
     props := ResourceProps.fnP itemsLambda.props
     refs := itemsLambda.envRefs },
   { id := "itemsGrantPolicy"
     owner := stackId
     props := ResourceProps.grantP itemsGrant
     refs := [itemsGrant.grantee, itemsGrant.resource] },
   { id := itemsApi.logicalId
     owner := stackId
     props := ResourceProps.apiP itemsApi.props
     refs := itemsApi.targets }]

/-- Resource lookup by logical id. -/
def findRes (rs : List Resource) (rid : String) : Option Resource :=
  rs.find? fun r => r.id == rid

/-- A deployment change, keyed by logical id. -/
inductive Change
  | create (id : String)
  | update (id : String)
  | delete (id : String)
deriving DecidableEq, Repr

/-- Modelled from the spec: the deployment diff between an applied resource
list and a newly synthesized one — creations, updates (same id, changed
descriptor), and deletions. -/
def diff (old new : List Resource) : List Change :=
  ((new.filter fun r => (findRes old r.id).isNone).map fun r => Change.create r.id)
    ++ ((new.filter fun r =>
          match findRes old r.id with
          | some o => o != r
          | none => false).map fun r => Change.update r.id)
    ++ ((old.filter fun r => (findRes new r.id).isNone).map fun r => Change.delete r.id)

/-- Modelled from the spec: grants accumulate additively into a policy, and a
grant statement already present is not duplicated on re-application. -/
def applyGrant (policy : List Grant) (g : Grant) : List Grant :=
  if g ∈ policy then policy else policy ++ [g]

/-- Modelled from the spec: destroying a deployable unit removes every
resource that unit owns and no others. -/
def teardown (deployed : List Resource) (stackId : String) : List Resource :=
  deployed.filter fun r => r.owner != stackId

/-- Modelled from the spec: on stack teardown the table and its data are
deleted exactly when the removal policy is destroy. -/
def Table.dataDeletedOnTeardown (t : Table) : Bool :=
  t.props.removalPolicy == some RemovalPolicy.DESTROY

/-- Whether the table carries a retention safeguard against teardown. -/
def Table.hasRetentionSafeguard (t : Table) : Bool :=
  t.props.removalPolicy == some RemovalPolicy.RETAIN

/-- Helper: each synthesized resource is found by looking up its own id. -/
theorem findRes_synth_self (stackId : String) :
    ∀ r ∈ synth stackId, findRes (synth stackId) r.id = some r := by
  intro r hr
  simp only [synth, List.mem_cons, List.not_mem_nil, or_false] at hr
  rcases hr with rfl | rfl | rfl | rfl <;> rfl

/-- Helper: diffing a resource list against itself yields no changes. -/
theorem diff_self (rs : List Resource)
    (h : ∀ r ∈ rs, findRes rs r.id = some r) : diff rs rs = [] := by
  have hA : (rs.filter fun r => (findRes rs r.id).isNone) = [] := by
    rw [List.filter_eq_nil_iff]
    intro r hr
    rw [h r hr]
    simp
  have hB : (rs.filter fun r =>
      match findRes rs r.id with
      | some o => o != r
      | none => false) = [] := by
    rw [List.filter_eq_nil_iff]
    intro r hr
    rw [h r hr]
    simp
  unfold diff
  rw [hA, hB]
  simp

/-- Claim C1: the compute environment has exactly the keys PK and TABLE_NAME;
the value of PK is the table's partition-key name, and the value of
TABLE_NAME is the table-name token of `dynamoTable`, a reference to the
table resource that resolves to the caller-supplied literal `items` rather
than a platform-generated name. -/
theorem compute_env_refs_table :
    itemsLambda.props.environment.map Prod.fst = ["PK", "TABLE_NAME"] ∧
    itemsLambda.props.environment.lookup ("PK") =
      some (StrVal.lit dynamoTable.props.partitionKey.name) ∧
    itemsLambda.props.environment.lookup ("TABLE_NAME") =
      some dynamoTable.tableName ∧
    dynamoTable.tableName = StrVal.ref dynamoTable.logicalId (some ("items")) ∧
    dynamoTable.props.tableName = some ("items") := by
  refine ⟨rfl, rfl, rfl, rfl, rfl⟩

/-- Claim C2: the grant runs from the function's identity onto the table and
permits exactly the read and write data-plane actions, none of the
control-plane or administrative actions. -/
theorem grant_read_write_data_only :
    itemsGrant.grantee = itemsLambda.logicalId ∧
    itemsGrant.resource = dynamoTable.logicalId ∧
    itemsGrant.actions = readDataActions ++ writeDataActions ∧
    ∀ a ∈ adminActions, a ∉ itemsGrant.actions := by
  refine ⟨rfl, rfl, rfl, by decide⟩

/-- Claim C3: the routing descriptor wires exactly one target, the compute
function, and its route set matches every method and every path. -/
theorem routing_single_target_catch_all :
    itemsApi.targets = [itemsLambda.logicalId] ∧
    ∀ (m : HttpMethod) (p : String), itemsApi.routeMatches m p = true :=
  ⟨rfl, fun _ _ => rfl⟩

/-- Claim C4 counterexample: the declaration configures no cross-origin
handling at all — the API descriptor carries no CORS preflight options, so
the claimed automatic handling of cross-origin headers is absent from this
declaration. -/
theorem routing_no_cors_configured :
    itemsApi.corsConfigured = false ∧
    itemsApi.props.defaultCorsPreflightOptions = none :=
  ⟨rfl, rfl⟩

/-- Claim C4 (amended): the routing declaration creates a public entry point
that forwards every request, any method and any path, to the compute
function, returning its response verbatim; it configures no cross-origin
header handling of its own, so CORS headers can only come from the backend
response or platform defaults. -/
theorem routing_forwards_verbatim :
    itemsApi.isPublic = true ∧
    (∀ (backend : HttpRequest → HttpResponse) (req : HttpRequest),
      itemsApi.dispatch backend req = backend req) ∧
    itemsApi.corsConfigured = false :=
  ⟨rfl, fun _ _ => rfl, rfl⟩

/-- Claim C5: the table declares a single partition key, named by the literal
string `itemId` with the string attribute type, and no sort key. -/
theorem table_single_partition_key :
    dynamoTable.props.partitionKey =
      { name := "itemId", type := AttributeType.STRING } ∧
    dynamoTable.props.sortKey = none :=
  ⟨rfl, rfl⟩

/-- Claim C6: the table's removal policy is destroy, so on stack teardown the
table and its data are deleted, and no retention safeguard applies. -/
theorem table_destroyed_on_teardown :
    dynamoTable.props.removalPolicy = some RemovalPolicy.DESTROY ∧
    dynamoTable.dataDeletedOnTeardown = true ∧
    dynamoTable.hasRetentionSafeguard = false :=
  ⟨rfl, rfl, rfl⟩

/-- Claim C7: synthesis builds, leaves first, the table, then the compute
function (whose environment references the table), then the grant, then the
routing descriptor, which depends only on the compute function. -/
theorem dependency_order (stackId : String) :
    (synth stackId).map Resource.id =
      ["items", "itemsLambda", "itemsGrantPolicy", "itemsApi"] ∧
    itemsLambda.envRefs = [dynamoTable.logicalId] ∧
    (synth stackId).map Resource.refs =
      [[], ["items"], ["itemsLambda", "items"], ["itemsLambda"]] :=
  ⟨rfl, rfl, rfl⟩

/-- Claim C8: the handler field is the sentinel `not.required`, and it is not
used for dispatch because the declared runtime PROVIDED_AL2023 belongs to
the provided family that executes an external self-contained binary. -/
theorem handler_is_unused_sentinel :
    itemsLambda.props.handler = "not.required" ∧
    itemsLambda.props.runtime = Runtime.PROVIDED_AL2023 ∧
    Runtime.family itemsLambda.props.runtime = RuntimeFamily.OTHER ∧
    itemsLambda.handlerUsedForDispatch = false :=
  ⟨rfl, rfl, rfl, rfl⟩

/-- Claim C9: synthesizing the stack twice from the same inputs yields
identical descriptors, so the re-apply diff is empty; and re-applying the
same grant to any policy is a no-op. -/
theorem reapply_is_noop (stackId : String) (policy : List Grant) :
    diff (synth stackId) (synth stackId) = [] ∧
    applyGrant (applyGrant policy itemsGrant) itemsGrant =
      applyGrant policy itemsGrant := by
  constructor
  · exact diff_self _ (findRes_synth_self stackId)
  · by_cases h : itemsGrant ∈ policy <;> simp [applyGrant, h]

/-- Claim C10: every synthesized resource, the grant's policy included, is
owned by the one stack, and tearing that stack down removes them all, so no
orphaned grant remains. -/
theorem teardown_leaves_no_orphans (stackId : String) :
    (∀ r ∈ synth stackId, r.owner = stackId) ∧
    teardown (synth stackId) stackId = [] ∧
    (∃ r ∈ synth stackId, r.props = ResourceProps.grantP itemsGrant) := by
  refine ⟨?_, ?_, ?_⟩
  · intro r hr
    simp only [synth, List.mem_cons, List.not_mem_nil, or_false] at hr
    rcases hr with rfl | rfl | rfl | rfl <;> rfl
  · simp [teardown, synth]
  · refine ⟨{ id := "itemsGrantPolicy"
              owner := stackId
              props := ResourceProps.grantP itemsGrant
              refs := [itemsGrant.grantee, itemsGrant.resource] }, ?_, rfl⟩
    simp [synth]

end ApiCorsLambdaCrudDynamodb
